import Mathlib

/-
Verification development for the weremac hybrid G3-PLC command-line driver.

Shallow embedding of:
  - src/hybrid/main.c        (orchestration layer, option parsing, thread startup)
  - src/g3-plc/send-mode.c   (the single-shot "send" interface mode)
with interface declarations from src/g3-plc/g3plc.h.

External collaborators that are not part of the repository tree given here
(the protocol engine g3plc.c / hybrid.c, the UART layer, the RPi GPIO layer,
the signal-based timers, and the numeric-parsing utilities) are represented
either as parameters of an environment record or as small definitions whose
doc comments start with "Modelled from the spec:".

The model of `main` is a sequentialized, deterministic interpretation of the
process: it produces the event trace of the run (driver calls, signal-mask
operations, thread creations and joins, mode callbacks), the final exit
status, the fatal diagnostic if any, and the per-thread SIGALRM mask state.
-/

namespace Weremac

/-- Threads of control of the process: the main thread, the output
(Writer/Mode) thread and the input (Reader) thread. -/
inductive Tid where
  | main
  | output
  | input
  deriving DecidableEq, Repr

/-- Per-thread SIGALRM blocked-mask state. A field is `true` when SIGALRM is
blocked (masked) on that thread. Initially no thread has it blocked. -/
structure Masks where
  mainThread : Bool
  outputThread : Bool
  inputThread : Bool
  deriving DecidableEq, Repr

/-- Look up the SIGALRM mask bit of one thread. -/
def maskOf (m : Masks) : Tid → Bool
  | .main => m.mainThread
  | .output => m.outputThread
  | .input => m.inputThread

/-- Observable events of a run of the process, in program order of the
sequentialized execution. -/
inductive Event where
  | serialInit
  | gpioConfig
  | modeInit
  | blockSignals (t : Tid)
  | hybridInit
  | spawn (t : Tid)
  | joinThread (t : Tid)
  | sendCall (dst : Nat) (payload : String) (size : Nat)
  | sendDone (st : Nat) (attempts : Nat) (waits : Nat)
  | modeDestroy
  | helpShown
  | versionShown
  | commitShown
  deriving DecidableEq, Repr

/-- The per-run context of main.c: verbosity flag, destination MAC address
and optional reset GPIO line. The struct context declaration lives in a
header outside the given tree; its fields are exactly the ones main.c uses
(ctx.verbose, ctx.dst_mac, ctx.gpio_reset) and the ones the spec lists. -/
structure Context where
  verbose : Nat
  dst_mac : Nat
  gpio_reset : Int
  deriving DecidableEq, Repr

/-- The driver configuration built by main.c (struct hybrid_config). Only the
fields that the given sources read or write are modelled; the function-pointer
fields are represented by the single bit cb_recv_set, recording whether the
receive callback slot has been populated (it starts as NULL in main.c). -/
structure HybridConfig where
  cb_recv_set : Bool
  pan_id : Nat
  ext_address : Nat
  mac_address : Nat
  retrans : Nat
  timeout : Nat
  flags : Nat
  deriving DecidableEq, Repr

/-- The mutable module-local state of send-mode.c: the display_time flag and
the message pointer (static int display_time; static const char *message). -/
structure ModeState where
  display_time : Bool
  message : String
  deriving DecidableEq, Repr

/-- Result of one send operation: final status, number of transmission
attempts performed, number of ACK-timeout waits performed. -/
structure SendResult where
  st : Nat
  attempts : Nat
  waits : Nat
  deriving DecidableEq, Repr

/-- External environment of one run: behaviour of the collaborators that are
outside the given tree. gpio_check models rpi_gpio_check; hybrid_init_ret is
the return value of hybrid_init; spawn_output_ok and spawn_input_ok tell
whether each pthread_create succeeds; link_ack tells whether transmission
attempt number k (1-based) receives an acknowledgment. -/
structure Env where
  gpio_check : Nat → Bool
  hybrid_init_ret : Int
  spawn_output_ok : Bool
  spawn_input_ok : Bool
  link_ack : Nat → Bool

/-- Numeric code of an option character, as getopt_long returns it. -/
def chOf (c : Char) : Nat := c.toNat

/-- enum opt of main.c: OPT_COMMIT = 0x100 and the GPIO options follow. -/
def OPT_COMMIT : Nat := 0x100

/-- enum opt of main.c: OPT_IRQ. -/
def OPT_IRQ : Nat := 0x101

/-- enum opt of main.c: OPT_CTS. -/
def OPT_CTS : Nat := 0x102

/-- enum opt of main.c: OPT_RESET. -/
def OPT_RESET : Nat := 0x103

/-- Modelled from the spec: the flag constants of hybrid.h (the header is not
in the given tree). Two distinct bits of the flags bit-set, following the
pattern of enum g3plc_flags in g3plc.h where the NOACK flag is bit 0x1. -/
def G3PLC_NOACK : Nat := 0x1

/-- Modelled from the spec: the accept-invalid-frames flag bit of hybrid.h. -/
def G3PLC_INVALID : Nat := 0x2

/-- Modelled from the spec: the success status code of the send operation. -/
def G3PLC_SND_SUCCESS : Nat := 0

/-- Modelled from the spec: the retry-exhausted (no acknowledgment within the
retransmission budget) status code of the send operation. -/
def G3PLC_SND_NOACK : Nat := 1

/-- Value of one decimal digit character, none when not a digit. -/
def decDigit? (c : Char) : Option Nat :=
  if 48 ≤ c.toNat ∧ c.toNat ≤ 57 then some (c.toNat - 48) else none

/-- Accumulate decimal digits; fails on the first non-digit character. -/
def decList : List Char → Nat → Option Nat
  | [], acc => some acc
  | c :: cs, acc =>
    match decDigit? c with
    | some d => decList cs (acc * 10 + d)
    | none => none

/-- Modelled from the spec: xatou of the xatoi utility (file not in the given
tree) parses an unsigned decimal number and reports an error on malformed
input; the error is represented by none. -/
def xatou (s : String) : Option Nat :=
  match s.toList with
  | [] => none
  | l => decList l 0

/-- Value of one hexadecimal digit character, none when not a hex digit. -/
def hexDigit? (c : Char) : Option Nat :=
  if 48 ≤ c.toNat ∧ c.toNat ≤ 57 then some (c.toNat - 48)
  else if 97 ≤ c.toNat ∧ c.toNat ≤ 102 then some (c.toNat - 87)
  else if 65 ≤ c.toNat ∧ c.toNat ≤ 70 then some (c.toNat - 55)
  else none

/-- Accumulate hexadecimal digits, stopping at the first non-digit, as
strtol(;, NULL, 16) does on the digit part of its input. -/
def hexList : List Char → Nat → Nat
  | [], acc => acc
  | c :: cs, acc =>
    match hexDigit? c with
    | some d => hexList cs (acc * 16 + d)
    | none => acc

/-- strtol(s, NULL, 16) restricted to plain hex-digit inputs, the shape main.c
feeds it (a hex short address on the command line). -/
def strtol16 (s : String) : Nat := hexList s.toList 0

/-- Search for the first acknowledged attempt: try attempts numbered
firstTry, firstTry+1, ... while budget remains; some k when attempt k is
acknowledged, none when the budget runs out. -/
def ackSearch (la : Nat → Bool) (firstTry : Nat) : Nat → Option Nat
  | 0 => none
  | n + 1 => if la firstTry then some firstTry else ackSearch la (firstTry + 1) n

/-- Modelled from the spec: the blocking retransmission loop of the driver
send operation (g3plc.c / hybrid.c, not in the given tree). With the no-ACK
flag set it transmits exactly once, performs no ACK wait and succeeds; with
ACK enabled it performs up to retrans attempts, each followed by an ACK
wait, succeeding at the first acknowledged attempt and otherwise reporting
retry exhaustion after exactly retrans attempts. -/
def g3plc_send_model (la : Nat → Bool) (noack : Bool) (retrans : Nat) : SendResult :=
  if noack then { st := G3PLC_SND_SUCCESS, attempts := 1, waits := 0 }
  else
    match ackSearch la 1 retrans with
    | some k => { st := G3PLC_SND_SUCCESS, attempts := k, waits := k }
    | none => { st := G3PLC_SND_NOACK, attempts := retrans, waits := retrans }

namespace SendMode

/-- The default message of send-mode.c: static const char *message. -/
def message0 : String := "Hello World!"

/-- init of send-mode.c: installs cb_recv into the driver configuration; the
context argument is unused (UNUSED(ctx)). -/
def init (ctx : Context) (g : HybridConfig) : HybridConfig :=
  { g with cb_recv_set := true }

/-- parse_option of send-mode.c: recognizes T (record the display_time flag)
and m (replace the message by optarg); any other option is reported as not
recognized and leaves the mode state unchanged. -/
def parse_option (ctx : Context) (ms : ModeState) (c : Nat) (arg : String) :
    Bool × ModeState :=
  if c = chOf 'T' then (true, { ms with display_time := true })
  else if c = chOf 'm' then (true, { ms with message := arg })
  else (false, ms)

/-- start of send-mode.c: one call of g3plc_send(ctx->dst_mac, message,
strlen(message)), then the TX status report. The returned events record the
send call and its completion; timing measurement is print-only. -/
def start (ctx : Context) (ms : ModeState) (hyb : HybridConfig)
    (la : Nat → Bool) : List Event × SendResult :=
  let r := g3plc_send_model la (hyb.flags &&& G3PLC_NOACK != 0) hyb.retrans
  ([Event.sendCall ctx.dst_mac ms.message ms.message.length,
    Event.sendDone r.st r.attempts r.waits], r)

/-- destroy of send-mode.c: releases nothing (UNUSED(ctx)). -/
def destroy (ctx : Context) : Unit := ()

end SendMode

/-- One entry of the opt_help tables passed to help(). -/
structure OptHelp where
  letterCode : Nat
  longName : String
  helpText : String
  deriving DecidableEq, Repr

/-- common_messages of print_help in main.c (the build without COMMIT). -/
def common_messages : List OptHelp :=
  [ ⟨chOf 'h', "help", "Show this help message"⟩,
    ⟨chOf 'V', "version", "Show version information"⟩,
    ⟨chOf 'v', "verbose", "Enable verbose mode"⟩,
    ⟨chOf 'i', "invalid", "Do not filter invalid packets (packet header, CRC)"⟩,
    ⟨chOf 'a', "no-ack", "Do not answer nor expect ACKs"⟩,
    ⟨chOf 't', "timeout", "ACK timeout in microseconds (default 4s)"⟩,
    ⟨chOf 'r', "retransmissions", "Maximum number of retransmissions (default 3)"⟩,
    ⟨chOf 'B', "baud", "Specify the baud rate (default 9600)"⟩,
    ⟨chOf 'd', "destination", "Destination MAC (hex. short address, default to broadcast)"⟩,
    ⟨0, "reset", "RESET RPi GPIO"⟩ ]

/-- State threaded through the getopt loop of main: the context, the driver
configuration, the mode-local state, the baud-rate string and the events
emitted so far. -/
structure LoopState where
  ctx : Context
  hybrid : HybridConfig
  ms : ModeState
  speed_str : String
  events : List Event
  deriving Repr

/-- The two ways the option loop leaves main early: errx (immediate fatal
exit with a diagnostic, status EXIT_FAILURE) and goto EXIT with an explicit
exit status (help, version, commit, unknown option). -/
inductive EarlyExit where
  | errx (msg : String)
  | exitNow (status : Nat)
  deriving DecidableEq, Repr

/-- struct context initializer of main.c: verbose 0, dst_mac 0xffff
(broadcast), gpio_reset -1 (absent). -/
def ctx0 : Context := { verbose := 0, dst_mac := 0xffff, gpio_reset := -1 }

/-- struct hybrid_config initializer of main.c: receive callback NULL,
pan_id 0xAAAA, ext_address 0, retrans 5, timeout 1000000 microseconds,
flags 0; mac_address is zero-filled until the positional argument is read. -/
def hybrid0 : HybridConfig :=
  { cb_recv_set := false, pan_id := 0xAAAA, ext_address := 0,
    mac_address := 0, retrans := 5, timeout := 1000000, flags := 0 }

/-- Initial mode-local state of send-mode.c: display_time unset, message
pointing at the default message. -/
def ms0 : ModeState := { display_time := false, message := SendMode.message0 }

/-- Initial state of the option loop of main. -/
def st0 : LoopState :=
  { ctx := ctx0, hybrid := hybrid0, ms := ms0, speed_str := "9600", events := [] }

/-- All-unblocked initial SIGALRM mask state of the process. -/
def masks0 : Masks := { mainThread := false, outputThread := false, inputThread := false }

/-- One iteration of the getopt loop of main: the option is first offered to
iface_mode.parse_option and, when recognized, the common switch is skipped
(continue); otherwise the common switch of main.c handles it. -/
def parseStep (env : Env) (st : LoopState) (tok : Nat × String) :
    LoopState × Option EarlyExit :=
  let c := tok.1
  let arg := tok.2
  let pr := SendMode.parse_option st.ctx st.ms c arg
  if pr.1 then ({ st with ms := pr.2 }, none)
  else if c = OPT_RESET then
    match xatou arg with
    | none => (st, some (.errx "cannot parse RESET GPIO"))
    | some n =>
      let st' := { st with ctx := { st.ctx with gpio_reset := (n : Int) } }
      if env.gpio_check n then (st', none)
      else (st', some (.errx "invalid RESET GPIO number"))
  else if c = chOf 'v' then
    ({ st with ctx := { st.ctx with verbose := 1 } }, none)
  else if c = chOf 'i' then
    ({ st with hybrid := { st.hybrid with flags := st.hybrid.flags ||| G3PLC_INVALID } }, none)
  else if c = chOf 'a' then
    ({ st with hybrid := { st.hybrid with flags := st.hybrid.flags ||| G3PLC_NOACK } }, none)
  else if c = chOf 'd' then
    ({ st with ctx := { st.ctx with dst_mac := strtol16 arg % 65536 } }, none)
  else if c = chOf 't' then
    match xatou arg with
    | none => (st, some (.errx "cannot parse timeout value"))
    | some n => ({ st with hybrid := { st.hybrid with timeout := n } }, none)
  else if c = chOf 'r' then
    match xatou arg with
    | none => (st, some (.errx "cannot parse retransmissions value"))
    | some n =>
      let st' := { st with hybrid := { st.hybrid with retrans := n } }
      if n < 1 then (st', some (.errx "invalid number of retransmissions"))
      else (st', none)
  else if c = chOf 'B' then
    ({ st with speed_str := arg }, none)
  else if c = chOf 'V' then
    ({ st with events := st.events ++ [Event.versionShown] }, some (.exitNow 0))
  else if c = OPT_COMMIT then
    ({ st with events := st.events ++ [Event.commitShown] }, some (.exitNow 0))
  else if c = chOf 'h' then
    ({ st with events := st.events ++ [Event.helpShown] }, some (.exitNow 0))
  else
    ({ st with events := st.events ++ [Event.helpShown] }, some (.exitNow 1))

/-- The whole getopt loop of main over the list of parsed option tokens. -/
def parseLoop (env : Env) : List (Nat × String) → LoopState → LoopState × Option EarlyExit
  | [], st => (st, none)
  | tok :: rest, st =>
    match parseStep env st tok with
    | (st', none) => parseLoop env rest st'
    | (st', some e) => (st', some e)

/-- thread_block_signals of main.c, for the given calling thread: adds
SIGALRM to that thread's blocked mask. -/
def thread_block_signals (t : Tid) (m : Masks) : Masks :=
  match t with
  | .main => { m with mainThread := true }
  | .output => { m with outputThread := true }
  | .input => { m with inputThread := true }

/-- pthread_create as called from the main thread: the new thread inherits
the signal mask of the creating (main) thread. -/
def pthread_create_model (m : Masks) (child : Tid) : Masks :=
  match child with
  | .main => m
  | .output => { m with outputThread := m.mainThread }
  | .input => { m with inputThread := m.mainThread }

/-- configure_gpio of main.c: returns without any action when gpio_reset is
negative, otherwise initializes the GPIO layer and the reset line. -/
def configure_gpio (ctx : Context) : List Event :=
  if ctx.gpio_reset < 0 then [] else [Event.gpioConfig]

/-- initialize_driver of main.c: serial initialization followed by the GPIO
configuration. -/
def initialize_driver (ctx : Context) : List Event :=
  [Event.serialInit] ++ configure_gpio ctx

/-- Result of start_io_threads: the events of the thread phase, the log of
thread creations (each with the mask state right after the creation), the
final mask state, the fatal diagnostic if thread creation failed, and the
send result of the output thread when it ran. -/
structure IoResult where
  events : List Event
  spawnLog : List (Tid × Masks)
  masks : Masks
  fatal : Option String
  sendRes : Option SendResult
  deriving Repr

/-- start_io_threads of main.c: blocks SIGALRM on the calling (main) thread,
creates the output and input threads (each inheriting the mask of main),
exits fatally when either creation failed, and otherwise runs the
sequentialized bodies (input_thread_func first blocks SIGALRM on the input
thread; output_thread_func runs iface_mode.start) and joins only the output
thread. -/
def start_io_threads (env : Env) (ctx : Context) (hyb : HybridConfig)
    (ms : ModeState) (m0 : Masks) : IoResult :=
  let m1 := thread_block_signals .main m0
  let r1 :=
    if env.spawn_output_ok then
      let m' := pthread_create_model m1 .output
      (m', [(Tid.output, m')], [Event.spawn .output])
    else (m1, ([] : List (Tid × Masks)), ([] : List Event))
  let r2 :=
    if env.spawn_input_ok then
      let m' := pthread_create_model r1.1 .input
      (m', [(Tid.input, m')], [Event.spawn .input])
    else (r1.1, ([] : List (Tid × Masks)), ([] : List Event))
  if env.spawn_output_ok && env.spawn_input_ok then
    let m4 := thread_block_signals .input r2.1
    let sr := SendMode.start ctx ms hyb env.link_ack
    { events := r1.2.2 ++ r2.2.2 ++ [Event.blockSignals .input] ++ sr.1
                  ++ [Event.joinThread .output],
      spawnLog := r1.2.1 ++ r2.2.1,
      masks := m4,
      fatal := none,
      sendRes := some sr.2 }
  else
    { events := r1.2.2 ++ r2.2.2,
      spawnLog := r1.2.1 ++ r2.2.1,
      masks := r2.1,
      fatal := some "cannot create threads",
      sendRes := none }

/-- Overall result of one run of main: the event trace, the exit status, the
fatal diagnostic if any, the final context, the thread-creation log, the
final mask state, the configuration passed to hybrid_init when it was
called, and the send result when the mode program ran. -/
structure MainResult where
  events : List Event
  status : Nat
  diag : Option String
  ctx : Context
  spawnLog : List (Tid × Masks)
  masks : Masks
  hybridInitArg : Option HybridConfig
  sendRes : Option SendResult
  deriving Repr

/-- The part of main after a successful option parse with exactly two
positional arguments: read the source address, initialize the driver, run
iface_mode.init, block SIGALRM on the main thread, call hybrid_init (fatal
when it reports an error), start the I/O threads and finally run
iface_mode.destroy before exit(EXIT_SUCCESS). -/
def runPhases (env : Env) (st : LoopState) (srcAddr dev : String) : MainResult :=
  let ctx := st.ctx
  let hyb1 := { st.hybrid with mac_address := strtol16 srcAddr % 65536 }
  let ev1 := st.events ++ initialize_driver ctx
  let hyb2 := SendMode.init ctx hyb1
  let ev2 := ev1 ++ [Event.modeInit]
  let m1 := thread_block_signals .main masks0
  let ev4 := ev2 ++ [Event.blockSignals .main] ++ [Event.hybridInit]
  if env.hybrid_init_ret < 0 then
    { events := ev4, status := 1, diag := some "cannot initialize G3-PLC",
      ctx := ctx, spawnLog := [], masks := m1,
      hybridInitArg := some hyb2, sendRes := none }
  else
    let io := start_io_threads env ctx hyb2 st.ms m1
    match io.fatal with
    | some msg =>
      { events := ev4 ++ io.events, status := 1, diag := some msg,
        ctx := ctx, spawnLog := io.spawnLog, masks := io.masks,
        hybridInitArg := some hyb2, sendRes := io.sendRes }
    | none =>
      { events := ev4 ++ io.events ++ [Event.modeDestroy], status := 0,
        diag := none, ctx := ctx, spawnLog := io.spawnLog, masks := io.masks,
        hybridInitArg := some hyb2, sendRes := io.sendRes }

/-- main of main.c, sequentialized: run the option loop, handle its early
exits, check that exactly two positional arguments remain, then run the
post-parse phases. -/
def runMain (env : Env) (toks : List (Nat × String)) (pos : List String) : MainResult :=
  match parseLoop env toks st0 with
  | (st, some (.errx msg)) =>
    { events := st.events, status := 1, diag := some msg, ctx := st.ctx,
      spawnLog := [], masks := masks0, hybridInitArg := none, sendRes := none }
  | (st, some (.exitNow s)) =>
    { events := st.events, status := s, diag := none, ctx := st.ctx,
      spawnLog := [], masks := masks0, hybridInitArg := none, sendRes := none }
  | (st, none) =>
    match pos with
    | [srcAddr, dev] => runPhases env st srcAddr dev
    | _ =>
      { events := st.events ++ [Event.helpShown], status := 1, diag := none,
        ctx := st.ctx, spawnLog := [], masks := masks0,
        hybridInitArg := none, sendRes := none }

/-- Modelled from the spec: the one designated thread to which the
retransmission-timer expiry is delivered is the thread blocking inside the
send operation, i.e. the Writer/Mode (output) thread. -/
def timerOwner : Tid := Tid.output

/-- Events the option loop may emit: only the print-and-exit events. -/
def benign (e : Event) : Bool :=
  match e with
  | .helpShown => true
  | .versionShown => true
  | .commitShown => true
  | _ => false

/-- Event a occurs strictly before event b in the list l. -/
def eventBefore (a b : Event) (l : List Event) : Prop :=
  ∃ l₁ l₂ l₃, l = l₁ ++ a :: (l₂ ++ b :: l₃)

/-- The events of the sequentialized thread phase: one spawn event per
successful thread creation, then (when both creations succeeded) the input
thread blocking SIGALRM, the mode program and the join of the output thread. -/
def ioEvents (env : Env) (ctx : Context) (hyb : HybridConfig) (ms : ModeState) : List Event :=
  (if env.spawn_output_ok then [Event.spawn .output] else []) ++
    (if env.spawn_input_ok then [Event.spawn .input] else []) ++
    (if env.spawn_output_ok && env.spawn_input_ok then
      [Event.blockSignals .input] ++ (SendMode.start ctx ms hyb env.link_ack).1
        ++ [Event.joinThread .output]
     else [])

/-- The events of the whole post-parse phase of main. -/
def mainTail (env : Env) (ctx : Context) (hyb : HybridConfig) (ms : ModeState) : List Event :=
  initialize_driver ctx ++ [Event.modeInit, Event.blockSignals .main, Event.hybridInit] ++
    (if env.hybrid_init_ret < 0 then []
     else ioEvents env ctx hyb ms ++
       (if env.spawn_output_ok && env.spawn_input_ok then [Event.modeDestroy] else []))

theorem start_io_threads_events (env : Env) (ctx : Context) (hyb : HybridConfig)
    (ms : ModeState) (m0 : Masks) :
    (start_io_threads env ctx hyb ms m0).events = ioEvents env ctx hyb ms := by
  unfold start_io_threads ioEvents
  by_cases hO : env.spawn_output_ok <;> by_cases hI : env.spawn_input_ok <;>
    simp [hO, hI]

theorem start_io_threads_fatal (env : Env) (ctx : Context) (hyb : HybridConfig)
    (ms : ModeState) (m0 : Masks) :
    (start_io_threads env ctx hyb ms m0).fatal =
      (if env.spawn_output_ok && env.spawn_input_ok then none
       else some "cannot create threads") := by
  unfold start_io_threads
  by_cases hO : env.spawn_output_ok <;> by_cases hI : env.spawn_input_ok <;>
    simp [hO, hI]

theorem runPhases_events (env : Env) (st : LoopState) (src dev : String) :
    (runPhases env st src dev).events =
      st.events ++ mainTail env st.ctx
        (SendMode.init st.ctx { st.hybrid with mac_address := strtol16 src % 65536 })
        st.ms := by
  unfold runPhases mainTail
  by_cases hR : env.hybrid_init_ret < 0
  · simp [hR, initialize_driver]
  · have hf := start_io_threads_fatal env st.ctx
      (SendMode.init st.ctx { st.hybrid with mac_address := strtol16 src % 65536 })
      st.ms (thread_block_signals .main masks0)
    have he := start_io_threads_events env st.ctx
      (SendMode.init st.ctx { st.hybrid with mac_address := strtol16 src % 65536 })
      st.ms (thread_block_signals .main masks0)
    by_cases hB : env.spawn_output_ok && env.spawn_input_ok <;>
      simp [hR, hf, hB, he, initialize_driver]

theorem runPhases_ctx (env : Env) (st : LoopState) (src dev : String) :
    (runPhases env st src dev).ctx = st.ctx := by
  unfold runPhases
  by_cases hR : env.hybrid_init_ret < 0
  · simp [hR]
  · have hf := start_io_threads_fatal env st.ctx
      (SendMode.init st.ctx { st.hybrid with mac_address := strtol16 src % 65536 })
      st.ms (thread_block_signals .main masks0)
    by_cases hB : env.spawn_output_ok && env.spawn_input_ok <;> simp [hR, hf, hB]

theorem parseStep_master (env : Env) (st : LoopState) (tok : Nat × String) :
    ((parseStep env st tok).1.events = st.events ∨
     (parseStep env st tok).1.events = st.events ++ [Event.helpShown] ∨
     (parseStep env st tok).1.events = st.events ++ [Event.versionShown] ∨
     (parseStep env st tok).1.events = st.events ++ [Event.commitShown]) ∧
    (tok.1 ≠ chOf 'r' → (parseStep env st tok).1.hybrid.retrans = st.hybrid.retrans) ∧
    (tok.1 ≠ chOf 't' → (parseStep env st tok).1.hybrid.timeout = st.hybrid.timeout) ∧
    (tok.1 ≠ chOf 'i' → tok.1 ≠ chOf 'a' →
      (parseStep env st tok).1.hybrid.flags = st.hybrid.flags) ∧
    (tok.1 ≠ chOf 'd' → (parseStep env st tok).1.ctx.dst_mac = st.ctx.dst_mac) := by
  obtain ⟨c, arg⟩ := tok
  by_cases h1 : (SendMode.parse_option st.ctx st.ms c arg).1 = true
  · have hv : (parseStep env st (c, arg)).1 =
        { st with ms := (SendMode.parse_option st.ctx st.ms c arg).2 } := by
      simp [parseStep, h1]
    rw [hv]
    exact ⟨Or.inl rfl, fun _ => rfl, fun _ => rfl, fun _ _ => rfl, fun _ => rfl⟩
  · replace h1 : (SendMode.parse_option st.ctx st.ms c arg).1 = false := by
      simpa using h1
    by_cases h2 : c = OPT_RESET
    · subst h2
      rcases hx : xatou arg with _ | n
      · have hv : (parseStep env st (OPT_RESET, arg)).1 = st := by
          simp [parseStep, h1, hx]
        rw [hv]
        exact ⟨Or.inl rfl, fun _ => rfl, fun _ => rfl, fun _ _ => rfl, fun _ => rfl⟩
      · have hv : (parseStep env st (OPT_RESET, arg)).1 =
            { st with ctx := { st.ctx with gpio_reset := (n : Int) } } := by
          by_cases hg : env.gpio_check n <;> simp [parseStep, h1, hx, hg]
        rw [hv]
        exact ⟨Or.inl rfl, fun _ => rfl, fun _ => rfl, fun _ _ => rfl, fun _ => rfl⟩
    · by_cases h3 : c = chOf 'v'
      · subst h3
        have hv : (parseStep env st (chOf 'v', arg)).1 =
            { st with ctx := { st.ctx with verbose := 1 } } := by
          simp [parseStep, h1, h2]
        rw [hv]
        exact ⟨Or.inl rfl, fun _ => rfl, fun _ => rfl, fun _ _ => rfl, fun _ => rfl⟩
      · by_cases h4 : c = chOf 'i'
        · subst h4
          have hv : (parseStep env st (chOf 'i', arg)).1 =
              { st with hybrid :=
                  { st.hybrid with flags := st.hybrid.flags ||| G3PLC_INVALID } } := by
            simp [parseStep, h1, h2, h3]
          rw [hv]
          exact ⟨Or.inl rfl, fun _ => rfl, fun _ => rfl,
            fun hi _ => absurd rfl hi, fun _ => rfl⟩
        · by_cases h5 : c = chOf 'a'
          · subst h5
            have hv : (parseStep env st (chOf 'a', arg)).1 =
                { st with hybrid :=
                    { st.hybrid with flags := st.hybrid.flags ||| G3PLC_NOACK } } := by
              simp [parseStep, h1, h2, h3, h4]
            rw [hv]
            exact ⟨Or.inl rfl, fun _ => rfl, fun _ => rfl,
              fun _ ha => absurd rfl ha, fun _ => rfl⟩
          · by_cases h6 : c = chOf 'd'
            · subst h6
              have hv : (parseStep env st (chOf 'd', arg)).1 =
                  { st with ctx :=
                      { st.ctx with dst_mac := strtol16 arg % 65536 } } := by
                simp [parseStep, h1, h2, h3, h4, h5]
              rw [hv]
              exact ⟨Or.inl rfl, fun _ => rfl, fun _ => rfl, fun _ _ => rfl,
                fun hd => absurd rfl hd⟩
            · by_cases h7 : c = chOf 't'
              · subst h7
                rcases hx : xatou arg with _ | n
                · have hv : (parseStep env st (chOf 't', arg)).1 = st := by
                    simp [parseStep, h1, h2, h3, h4, h5, h6, hx]
                  rw [hv]
                  exact ⟨Or.inl rfl, fun _ => rfl, fun ht => absurd rfl ht,
                    fun _ _ => rfl, fun _ => rfl⟩
                · have hv : (parseStep env st (chOf 't', arg)).1 =
                      { st with hybrid := { st.hybrid with timeout := n } } := by
                    simp [parseStep, h1, h2, h3, h4, h5, h6, hx]
                  rw [hv]
                  exact ⟨Or.inl rfl, fun _ => rfl, fun ht => absurd rfl ht,
                    fun _ _ => rfl, fun _ => rfl⟩
              · by_cases h8 : c = chOf 'r'
                · subst h8
                  rcases hx : xatou arg with _ | n
                  · have hv : (parseStep env st (chOf 'r', arg)).1 = st := by
                      simp [parseStep, h1, h2, h3, h4, h5, h6, h7, hx]
                    rw [hv]
                    exact ⟨Or.inl rfl, fun hr => absurd rfl hr, fun _ => rfl,
                      fun _ _ => rfl, fun _ => rfl⟩
                  · have hv : (parseStep env st (chOf 'r', arg)).1 =
                        { st with hybrid := { st.hybrid with retrans := n } } := by
                      by_cases hn : n < 1 <;>
                        simp [parseStep, h1, h2, h3, h4, h5, h6, h7, hx, hn]
                    rw [hv]
                    exact ⟨Or.inl rfl, fun hr => absurd rfl hr, fun _ => rfl,
                      fun _ _ => rfl, fun _ => rfl⟩
                · by_cases h9 : c = chOf 'B'
                  · subst h9
                    have hv : (parseStep env st (chOf 'B', arg)).1 =
                        { st with speed_str := arg } := by
                      simp [parseStep, h1, h2, h3, h4, h5, h6, h7, h8]
                    rw [hv]
                    exact ⟨Or.inl rfl, fun _ => rfl, fun _ => rfl, fun _ _ => rfl,
                      fun _ => rfl⟩
                  · by_cases h10 : c = chOf 'V'
                    · subst h10
                      have hv : (parseStep env st (chOf 'V', arg)).1 =
                          { st with events := st.events ++ [Event.versionShown] } := by
                        simp [parseStep, h1, h2, h3, h4, h5, h6, h7, h8, h9]
                      rw [hv]
                      exact ⟨Or.inr (Or.inr (Or.inl rfl)), fun _ => rfl, fun _ => rfl,
                        fun _ _ => rfl, fun _ => rfl⟩
                    · by_cases h11 : c = OPT_COMMIT
                      · subst h11
                        have hv : (parseStep env st (OPT_COMMIT, arg)).1 =
                            { st with events := st.events ++ [Event.commitShown] } := by
                          simp [parseStep, h1, h2, h3, h4, h5, h6, h7, h8, h9, h10]
                        rw [hv]
                        exact ⟨Or.inr (Or.inr (Or.inr rfl)), fun _ => rfl, fun _ => rfl,
                          fun _ _ => rfl, fun _ => rfl⟩
                      · by_cases h12 : c = chOf 'h'
                        · subst h12
                          have hv : (parseStep env st (chOf 'h', arg)).1 =
                              { st with events := st.events ++ [Event.helpShown] } := by
                            simp [parseStep, h1, h2, h3, h4, h5, h6, h7, h8, h9, h10,
                              h11]
                          rw [hv]
                          exact ⟨Or.inr (Or.inl rfl), fun _ => rfl, fun _ => rfl,
                            fun _ _ => rfl, fun _ => rfl⟩
                        · have hv : (parseStep env st (c, arg)).1 =
                              { st with events := st.events ++ [Event.helpShown] } := by
                            simp [parseStep, h1, h2, h3, h4, h5, h6, h7, h8, h9, h10,
                              h11, h12]
                          rw [hv]
                          exact ⟨Or.inr (Or.inl rfl), fun _ => rfl, fun _ => rfl,
                            fun _ _ => rfl, fun _ => rfl⟩

theorem parseStep_events_benign (env : Env) (st : LoopState) (tok : Nat × String)
    (h : ∀ e ∈ st.events, benign e = true) :
    ∀ e ∈ (parseStep env st tok).1.events, benign e = true := by
  intro e he
  rcases (parseStep_master env st tok).1 with h' | h' | h' | h'
  · rw [h'] at he
    exact h e he
  · rw [h'] at he
    rcases List.mem_append.1 he with hl | hr
    · exact h e hl
    · simp only [List.mem_singleton] at hr
      subst hr
      rfl
  · rw [h'] at he
    rcases List.mem_append.1 he with hl | hr
    · exact h e hl
    · simp only [List.mem_singleton] at hr
      subst hr
      rfl
  · rw [h'] at he
    rcases List.mem_append.1 he with hl | hr
    · exact h e hl
    · simp only [List.mem_singleton] at hr
      subst hr
      rfl

theorem parseLoop_events_benign (env : Env) :
    ∀ (toks : List (Nat × String)) (st : LoopState),
      (∀ e ∈ st.events, benign e = true) →
      ∀ e ∈ (parseLoop env toks st).1.events, benign e = true := by
  intro toks
  induction toks with
  | nil => intro st h; exact h
  | cons tok rest ih =>
    intro st h
    unfold parseLoop
    rcases hs : parseStep env st tok with ⟨st', e'⟩
    have hb : ∀ e ∈ st'.events, benign e = true := by
      have := parseStep_events_benign env st tok h
      rw [hs] at this
      exact this
    cases e' with
    | none => simpa using ih st' hb
    | some ee => simpa using hb

theorem not_benign_not_in_parse (env : Env) (toks : List (Nat × String)) {e : Event}
    (he : benign e = false) : e ∉ (parseLoop env toks st0).1.events := by
  intro hmem
  have h0 : ∀ x ∈ st0.events, benign x = true := by
    intro x hx
    simp [st0] at hx
  have := parseLoop_events_benign env toks st0 h0 e hmem
  rw [he] at this
  exact Bool.noConfusion this

theorem mem_initialize_driver {e : Event} {ctx : Context}
    (h : e ∈ initialize_driver ctx) :
    e = Event.serialInit ∨ e = Event.gpioConfig := by
  unfold initialize_driver configure_gpio at h
  split at h <;> simp at h <;> tauto

theorem ioEvents_no (env : Env) (ctx : Context) (hyb : HybridConfig) (ms : ModeState) :
    Event.hybridInit ∉ ioEvents env ctx hyb ms ∧
    Event.modeInit ∉ ioEvents env ctx hyb ms ∧
    Event.modeDestroy ∉ ioEvents env ctx hyb ms ∧
    Event.serialInit ∉ ioEvents env ctx hyb ms ∧
    Event.gpioConfig ∉ ioEvents env ctx hyb ms ∧
    Event.joinThread .input ∉ ioEvents env ctx hyb ms := by
  unfold ioEvents SendMode.start
  split_ifs <;> simp

theorem ioEvents_no_send (env : Env) (ctx : Context) (hyb : HybridConfig)
    (ms : ModeState) (hb : (env.spawn_output_ok && env.spawn_input_ok) = false) :
    ∀ d p n, Event.sendCall d p n ∉ ioEvents env ctx hyb ms := by
  unfold ioEvents
  split_ifs with hO hI hx hy hz <;> simp_all

theorem runPhases_status (env : Env) (st : LoopState) (src dev : String) :
    (runPhases env st src dev).status =
      (if env.hybrid_init_ret < 0 then 1
       else if env.spawn_output_ok && env.spawn_input_ok then 0 else 1) := by
  unfold runPhases
  by_cases hR : env.hybrid_init_ret < 0
  · simp [hR]
  · have hf := start_io_threads_fatal env st.ctx
      (SendMode.init st.ctx { st.hybrid with mac_address := strtol16 src % 65536 })
      st.ms (thread_block_signals .main masks0)
    by_cases hB : env.spawn_output_ok && env.spawn_input_ok <;> simp [hR, hf, hB]

theorem runPhases_diag (env : Env) (st : LoopState) (src dev : String) :
    (runPhases env st src dev).diag =
      (if env.hybrid_init_ret < 0 then some "cannot initialize G3-PLC"
       else if env.spawn_output_ok && env.spawn_input_ok then none
       else some "cannot create threads") := by
  unfold runPhases
  by_cases hR : env.hybrid_init_ret < 0
  · simp [hR]
  · have hf := start_io_threads_fatal env st.ctx
      (SendMode.init st.ctx { st.hybrid with mac_address := strtol16 src % 65536 })
      st.ms (thread_block_signals .main masks0)
    by_cases hB : env.spawn_output_ok && env.spawn_input_ok <;> simp [hR, hf, hB]

theorem runPhases_hybridInitArg (env : Env) (st : LoopState) (src dev : String) :
    (runPhases env st src dev).hybridInitArg =
      some (SendMode.init st.ctx
        { st.hybrid with mac_address := strtol16 src % 65536 }) := by
  unfold runPhases
  by_cases hR : env.hybrid_init_ret < 0
  · simp [hR]
  · have hf := start_io_threads_fatal env st.ctx
      (SendMode.init st.ctx { st.hybrid with mac_address := strtol16 src % 65536 })
      st.ms (thread_block_signals .main masks0)
    by_cases hB : env.spawn_output_ok && env.spawn_input_ok <;> simp [hR, hf, hB]

/-- A fully successful environment: every GPIO number accepted, hybrid_init
succeeds, both thread creations succeed, the link never acknowledges. -/
def envA : Env :=
  { gpio_check := fun _ => true, hybrid_init_ret := 0,
    spawn_output_ok := true, spawn_input_ok := true, link_ack := fun _ => false }

/-- Environment whose GPIO check rejects every number. -/
def envB : Env := { envA with gpio_check := fun _ => false }

theorem parseLoop_defaults (env : Env) :
    ∀ (toks : List (Nat × String)) (st : LoopState),
      (∀ tok ∈ toks, tok.1 ≠ chOf 'r' ∧ tok.1 ≠ chOf 't' ∧ tok.1 ≠ chOf 'i' ∧
        tok.1 ≠ chOf 'a' ∧ tok.1 ≠ chOf 'd') →
      (parseLoop env toks st).1.hybrid.retrans = st.hybrid.retrans ∧
      (parseLoop env toks st).1.hybrid.timeout = st.hybrid.timeout ∧
      (parseLoop env toks st).1.hybrid.flags = st.hybrid.flags ∧
      (parseLoop env toks st).1.ctx.dst_mac = st.ctx.dst_mac := by
  intro toks
  induction toks with
  | nil =>
    intro st h
    exact ⟨rfl, rfl, rfl, rfl⟩
  | cons tok rest ih =>
    intro st h
    obtain ⟨h0, hrest⟩ := List.forall_mem_cons.1 h
    obtain ⟨hr, ht, hi, ha, hd⟩ := h0
    have hm := parseStep_master env st tok
    unfold parseLoop
    rcases hs : parseStep env st tok with ⟨st', e'⟩
    rw [hs] at hm
    have hstep : st'.hybrid.retrans = st.hybrid.retrans ∧
        st'.hybrid.timeout = st.hybrid.timeout ∧
        st'.hybrid.flags = st.hybrid.flags ∧
        st'.ctx.dst_mac = st.ctx.dst_mac :=
      ⟨hm.2.1 hr, hm.2.2.1 ht, hm.2.2.2.1 hi ha, hm.2.2.2.2 hd⟩
    cases e' with
    | none =>
      have hrec := ih st' hrest
      dsimp only
      exact ⟨hrec.1.trans hstep.1, hrec.2.1.trans hstep.2.1,
        hrec.2.2.1.trans hstep.2.2.1, hrec.2.2.2.trans hstep.2.2.2⟩
    | some ee =>
      dsimp only
      exact hstep

/-- C6: for every parsed option character, the active Mode parse_option is
consulted first, and whenever it reports the option as recognized the common
option handling for that character is skipped entirely: the step only
updates the mode-local state and neither touches the context, driver
configuration or baud string nor exits early. -/
theorem c6_mode_option_precedence (env : Env) (st : LoopState) (tok : Nat × String)
    (h : (SendMode.parse_option st.ctx st.ms tok.1 tok.2).1 = true) :
    parseStep env st tok =
      ({ st with ms := (SendMode.parse_option st.ctx st.ms tok.1 tok.2).2 }, none) := by
  obtain ⟨c, arg⟩ := tok
  simp only [parseStep]
  rw [if_pos h]

/-- Witness for C6 at the concrete mode option T on the initial state. -/
theorem c6_witness :
    parseStep envA st0 (chOf 'T', "") =
      ({ st0 with
          ms := (SendMode.parse_option st0.ctx st0.ms (chOf 'T', "").1 (chOf 'T', "").2).2 },
        none) :=
  c6_mode_option_precedence envA st0 (chOf 'T', "") (by decide)

/-- C7: start_io_threads spawns both the Reader and the Writer/Mode thread,
never joins the Reader (input) thread, waits only on the Writer/Mode
(output) thread, and a failure to create either thread is fatal. -/
theorem c7_spawn_join_discipline (env : Env) (ctx : Context) (hyb : HybridConfig)
    (ms : ModeState) (m0 : Masks) :
    Event.joinThread .input ∉ (start_io_threads env ctx hyb ms m0).events ∧
    (env.spawn_output_ok = true → env.spawn_input_ok = true →
      (start_io_threads env ctx hyb ms m0).fatal = none ∧
      Event.spawn .output ∈ (start_io_threads env ctx hyb ms m0).events ∧
      Event.spawn .input ∈ (start_io_threads env ctx hyb ms m0).events ∧
      Event.joinThread .output ∈ (start_io_threads env ctx hyb ms m0).events) ∧
    ((env.spawn_output_ok = false ∨ env.spawn_input_ok = false) →
      (start_io_threads env ctx hyb ms m0).fatal = some "cannot create threads") := by
  refine ⟨?_, ?_, ?_⟩
  · rw [start_io_threads_events]
    exact (ioEvents_no env ctx hyb ms).2.2.2.2.2
  · intro hO hI
    rw [start_io_threads_fatal, start_io_threads_events]
    refine ⟨by simp [hO, hI], ?_, ?_, ?_⟩ <;> simp [ioEvents, hO, hI, SendMode.start]
  · intro hOr
    rw [start_io_threads_fatal]
    rcases hOr with h | h <;> simp [h]

/-- Witness for C7 in the all-success environment on the initial state. -/
theorem c7_witness :
    (start_io_threads envA ctx0 hybrid0 ms0 masks0).fatal = none ∧
    Event.joinThread .input ∉ (start_io_threads envA ctx0 hybrid0 ms0 masks0).events :=
  ⟨((c7_spawn_join_discipline envA ctx0 hybrid0 ms0 masks0).2.1 rfl rfl).1,
    (c7_spawn_join_discipline envA ctx0 hybrid0 ms0 masks0).1⟩

/-- C9: the context is fully determined by option parsing: every post-parse
phase of the run (driver initialization, the mode init, hybrid_init, both
I/O threads and the mode destroy) leaves the context unchanged, so the final
context of any run equals the context produced by the option loop. -/
theorem c9_context_immutable (env : Env) (toks : List (Nat × String))
    (pos : List String) :
    (runMain env toks pos).ctx = (parseLoop env toks st0).1.ctx := by
  rcases hP : parseLoop env toks st0 with ⟨st, e⟩
  cases e with
  | none =>
    cases pos with
    | nil => simp [runMain, hP]
    | cons a rest =>
      cases rest with
      | nil => simp [runMain, hP]
      | cons b rest2 =>
        cases rest2 with
        | nil => simp [runMain, hP, runPhases_ctx]
        | cons x rest3 => simp [runMain, hP]
  | some ee =>
    cases ee with
    | errx m => simp [runMain, hP]
    | exitNow s => simp [runMain, hP]

/-- C10: with none of the options r, t, i, a, d present, the configuration
defaults after parsing are retransmission limit 5, ACK timeout 1000000
microseconds, flags 0 and destination MAC 0xffff, while the help table
announces a default of 3 retransmissions and a 4-second timeout. -/
theorem c10_defaults_vs_help (env : Env) (toks : List (Nat × String))
    (h : ∀ tok ∈ toks, tok.1 ≠ chOf 'r' ∧ tok.1 ≠ chOf 't' ∧ tok.1 ≠ chOf 'i' ∧
      tok.1 ≠ chOf 'a' ∧ tok.1 ≠ chOf 'd') :
    (parseLoop env toks st0).1.hybrid.retrans = 5 ∧
    (parseLoop env toks st0).1.hybrid.timeout = 1000000 ∧
    (parseLoop env toks st0).1.hybrid.flags = 0 ∧
    (parseLoop env toks st0).1.ctx.dst_mac = 0xffff ∧
    (∃ e ∈ common_messages, e.letterCode = chOf 'r' ∧
      e.helpText = "Maximum number of retransmissions (default 3)") ∧
    (∃ e ∈ common_messages, e.letterCode = chOf 't' ∧
      e.helpText = "ACK timeout in microseconds (default 4s)") := by
  have hk := parseLoop_defaults env toks st0 h
  refine ⟨hk.1, hk.2.1, hk.2.2.1, hk.2.2.2, ?_, ?_⟩
  · exact ⟨⟨chOf 'r', "retransmissions",
      "Maximum number of retransmissions (default 3)"⟩,
      by simp [common_messages], rfl, rfl⟩
  · exact ⟨⟨chOf 't', "timeout", "ACK timeout in microseconds (default 4s)"⟩,
      by simp [common_messages], rfl, rfl⟩

/-- The option tokens of the C5 scenario: -a -r 3 -d 1234. -/
def toksC5 : List (Nat × String) :=
  [(chOf 'a', ""), (chOf 'r', "3"), (chOf 'd', "1234")]

/-- Environment of the C5 scenario: initialization and both thread creations
succeed; the GPIO check and the link behaviour are arbitrary. -/
def envC5 (gc la : Nat → Bool) : Env :=
  { gpio_check := gc, hybrid_init_ret := 0, spawn_output_ok := true,
    spawn_input_ok := true, link_ack := la }

/-- C5: with options -a -r 3 and destination 0x1234 and the default payload,
the run calls the driver send operation exactly once, with destination
0x1234, payload "Hello World!" and size 12; no ACK wait occurs and the
reported attempt count is 1, whatever the link does. -/
theorem c5_scenario_noack_single_send (gc la : Nat → Bool) :
    ((runMain (envC5 gc la) toksC5 ["1", "dev"]).events.filter
        (fun e => match e with | Event.sendCall _ _ _ => true | _ => false)) =
      [Event.sendCall 0x1234 "Hello World!" 12] ∧
    Event.sendDone G3PLC_SND_SUCCESS 1 0 ∈
      (runMain (envC5 gc la) toksC5 ["1", "dev"]).events ∧
    (runMain (envC5 gc la) toksC5 ["1", "dev"]).sendRes =
      some { st := G3PLC_SND_SUCCESS, attempts := 1, waits := 0 } := by
  have hE : (runMain (envC5 gc la) toksC5 ["1", "dev"]).events =
      [Event.serialInit, Event.modeInit, Event.blockSignals .main, Event.hybridInit,
       Event.spawn .output, Event.spawn .input, Event.blockSignals .input,
       Event.sendCall 0x1234 "Hello World!" 12,
       Event.sendDone G3PLC_SND_SUCCESS 1 0,
       Event.joinThread .output, Event.modeDestroy] := rfl
  refine ⟨?_, ?_, rfl⟩
  · rw [hE]
    rfl
  · rw [hE]
    simp

/-- C2: in every run whose trace reaches hybrid_init, the mode init (which
installs the receive callback into the driver configuration) occurs before
hybrid_init, hybrid_init occurs exactly once, and the configuration passed
to hybrid_init has the receive callback populated. -/
theorem c2_mode_init_before_driver_init (env : Env) (toks : List (Nat × String))
    (pos : List String)
    (h : Event.hybridInit ∈ (runMain env toks pos).events) :
    (runMain env toks pos).events.count Event.hybridInit = 1 ∧
    eventBefore Event.modeInit Event.hybridInit (runMain env toks pos).events ∧
    (∀ cfg, (runMain env toks pos).hybridInitArg = some cfg →
      cfg.cb_recv_set = true) := by
  have hben := parseLoop_events_benign env toks st0
    (by intro x hx; simp [st0] at hx)
  rcases hP : parseLoop env toks st0 with ⟨st, e⟩
  rw [hP] at hben
  have hnotin : Event.hybridInit ∉ st.events := by
    intro hm
    have hb := hben _ hm
    simp [benign] at hb
  cases e with
  | some ee =>
    cases ee with
    | errx m =>
      simp only [runMain, hP] at h
      exact absurd h hnotin
    | exitNow s =>
      simp only [runMain, hP] at h
      exact absurd h hnotin
  | none =>
    cases pos with
    | nil =>
      simp only [runMain, hP] at h
      rcases List.mem_append.1 h with hl | hr
      · exact absurd hl hnotin
      · simp at hr
    | cons a rest =>
      cases rest with
      | nil =>
        simp only [runMain, hP] at h
        rcases List.mem_append.1 h with hl | hr
        · exact absurd hl hnotin
        · simp at hr
      | cons b rest2 =>
        cases rest2 with
        | cons x rest3 =>
          simp only [runMain, hP] at h
          rcases List.mem_append.1 h with hl | hr
          · exact absurd hl hnotin
          · simp at hr
        | nil =>
          simp only [runMain, hP] at h ⊢
          rw [runPhases_events] at h ⊢
          rw [runPhases_hybridInitArg]
          set hyb2 := SendMode.init st.ctx
            { st.hybrid with mac_address := strtol16 a % 65536 } with hh
          refine ⟨?_, ?_, ?_⟩
          · rw [List.count_append, List.count_eq_zero.2 hnotin]
            unfold mainTail
            rw [List.count_append, List.count_append]
            have h1 : (initialize_driver st.ctx).count Event.hybridInit = 0 :=
              List.count_eq_zero.2 (by
                intro hm
                rcases mem_initialize_driver hm with h' | h' <;> simp at h')
            have h2 : ([Event.modeInit, Event.blockSignals .main,
                Event.hybridInit]).count Event.hybridInit = 1 := by decide
            rw [h1, h2]
            by_cases hR : env.hybrid_init_ret < 0
            · simp [hR]
            · rw [if_neg hR, List.count_append,
                List.count_eq_zero.2 (ioEvents_no env st.ctx hyb2 st.ms).1]
              by_cases hB : env.spawn_output_ok && env.spawn_input_ok <;>
                simp [hB]
          · refine ⟨st.events ++ initialize_driver st.ctx,
              [Event.blockSignals .main],
              (if env.hybrid_init_ret < 0 then []
               else ioEvents env st.ctx hyb2 st.ms ++
                 (if env.spawn_output_ok && env.spawn_input_ok then
                   [Event.modeDestroy] else [])), ?_⟩
            unfold mainTail
            simp
          · intro cfg hcfg
            injection hcfg with hcfg'
            subst hcfg'
            rfl

/-- Witness for C2 on a concrete full run. -/
theorem c2_witness :
    (runMain envA [] ["1", "dev"]).events.count Event.hybridInit = 1 ∧
    eventBefore Event.modeInit Event.hybridInit (runMain envA [] ["1", "dev"]).events ∧
    (∀ cfg, (runMain envA [] ["1", "dev"]).hybridInitArg = some cfg →
      cfg.cb_recv_set = true) :=
  c2_mode_init_before_driver_init envA [] ["1", "dev"] (by decide)

/-- C3: every run whose trace contains a driver send call exits with the
success status and no fatal diagnostic, whatever the final transmission
status was. -/
theorem c3_completed_send_exits_success (env : Env) (toks : List (Nat × String))
    (pos : List String)
    (h : ∃ d p n, Event.sendCall d p n ∈ (runMain env toks pos).events) :
    (runMain env toks pos).status = 0 ∧ (runMain env toks pos).diag = none := by
  obtain ⟨d, p, n, hmem⟩ := h
  have hben := parseLoop_events_benign env toks st0
    (by intro x hx; simp [st0] at hx)
  rcases hP : parseLoop env toks st0 with ⟨st, e⟩
  rw [hP] at hben
  have hnotin : Event.sendCall d p n ∉ st.events := by
    intro hm
    have hb := hben _ hm
    simp [benign] at hb
  cases e with
  | some ee =>
    cases ee with
    | errx m =>
      simp only [runMain, hP] at hmem
      exact absurd hmem hnotin
    | exitNow s =>
      simp only [runMain, hP] at hmem
      exact absurd hmem hnotin
  | none =>
    cases pos with
    | nil =>
      simp only [runMain, hP] at hmem
      rcases List.mem_append.1 hmem with hl | hr
      · exact absurd hl hnotin
      · simp at hr
    | cons a rest =>
      cases rest with
      | nil =>
        simp only [runMain, hP] at hmem
        rcases List.mem_append.1 hmem with hl | hr
        · exact absurd hl hnotin
        · simp at hr
      | cons b rest2 =>
        cases rest2 with
        | cons x rest3 =>
          simp only [runMain, hP] at hmem
          rcases List.mem_append.1 hmem with hl | hr
          · exact absurd hl hnotin
          · simp at hr
        | nil =>
          simp only [runMain, hP] at hmem ⊢
          rw [runPhases_events] at hmem
          set hyb2 := SendMode.init st.ctx
            { st.hybrid with mac_address := strtol16 a % 65536 } with hh
          rw [runPhases_status, runPhases_diag]
          by_cases hR : env.hybrid_init_ret < 0
          · exfalso
            unfold mainTail at hmem
            rw [if_pos hR] at hmem
            simp only [List.append_nil, List.mem_append] at hmem
            rcases hmem with hl | (hm | ht)
            · exact hnotin hl
            · rcases mem_initialize_driver hm with h' | h' <;> simp at h'
            · simp at ht
          · by_cases hB : env.spawn_output_ok && env.spawn_input_ok
            · simp [hR, hB]
            · exfalso
              unfold mainTail at hmem
              rw [if_neg hR, if_neg hB] at hmem
              simp only [List.append_nil, List.mem_append] at hmem
              rcases hmem with hl | ((hm | ht) | hio)
              · exact hnotin hl
              · rcases mem_initialize_driver hm with h' | h' <;> simp at h'
              · simp at ht
              · exact ioEvents_no_send env st.ctx hyb2 st.ms
                  (by simpa using hB) d p n hio

/-- Witness for C3 on a concrete full run. -/
theorem c3_witness :
    (runMain envA [] ["1", "dev"]).status = 0 ∧
    (runMain envA [] ["1", "dev"]).diag = none :=
  c3_completed_send_exits_success envA [] ["1", "dev"]
    ⟨0xffff, "Hello World!", 12, by decide⟩

/-- Witness for C10 on the empty option list. -/
theorem c10_witness :
    (parseLoop envA [] st0).1.hybrid.retrans = 5 ∧
    (parseLoop envA [] st0).1.hybrid.timeout = 1000000 ∧
    (parseLoop envA [] st0).1.hybrid.flags = 0 ∧
    (parseLoop envA [] st0).1.ctx.dst_mac = 0xffff ∧
    (∃ e ∈ common_messages, e.letterCode = chOf 'r' ∧
      e.helpText = "Maximum number of retransmissions (default 3)") ∧
    (∃ e ∈ common_messages, e.letterCode = chOf 't' ∧
      e.helpText = "ACK timeout in microseconds (default 4s)") :=
  c10_defaults_vs_help envA [] (by simp)

theorem start_io_threads_spawnLog (env : Env) (ctx : Context) (hyb : HybridConfig)
    (ms : ModeState) :
    (start_io_threads env ctx hyb ms (thread_block_signals .main masks0)).spawnLog =
      (if env.spawn_output_ok then
        [(Tid.output,
          { mainThread := true, outputThread := true, inputThread := false })]
       else []) ++
      (if env.spawn_input_ok then
        [(Tid.input,
          { mainThread := true, outputThread := env.spawn_output_ok,
            inputThread := true })]
       else []) := by
  unfold start_io_threads thread_block_signals pthread_create_model masks0
  by_cases hO : env.spawn_output_ok <;> by_cases hI : env.spawn_input_ok <;>
    simp [hO, hI]

theorem start_io_threads_masks_success (env : Env) (ctx : Context)
    (hyb : HybridConfig) (ms : ModeState)
    (hO : env.spawn_output_ok = true) (hI : env.spawn_input_ok = true) :
    (start_io_threads env ctx hyb ms (thread_block_signals .main masks0)).masks =
      { mainThread := true, outputThread := true, inputThread := true } := by
  unfold start_io_threads thread_block_signals pthread_create_model masks0
  simp [hO, hI]

theorem runPhases_spawnLog (env : Env) (st : LoopState) (src dev : String) :
    (runPhases env st src dev).spawnLog =
      (if env.hybrid_init_ret < 0 then []
       else (start_io_threads env st.ctx
        (SendMode.init st.ctx { st.hybrid with mac_address := strtol16 src % 65536 })
        st.ms (thread_block_signals .main masks0)).spawnLog) := by
  unfold runPhases
  by_cases hR : env.hybrid_init_ret < 0
  · simp [hR]
  · have hf := start_io_threads_fatal env st.ctx
      (SendMode.init st.ctx { st.hybrid with mac_address := strtol16 src % 65536 })
      st.ms (thread_block_signals .main masks0)
    by_cases hB : env.spawn_output_ok && env.spawn_input_ok <;> simp [hR, hf, hB]

theorem runPhases_masks (env : Env) (st : LoopState) (src dev : String)
    (hR : ¬ env.hybrid_init_ret < 0) :
    (runPhases env st src dev).masks =
      (start_io_threads env st.ctx
        (SendMode.init st.ctx { st.hybrid with mac_address := strtol16 src % 65536 })
        st.ms (thread_block_signals .main masks0)).masks := by
  unfold runPhases
  have hf := start_io_threads_fatal env st.ctx
    (SendMode.init st.ctx { st.hybrid with mac_address := strtol16 src % 65536 })
    st.ms (thread_block_signals .main masks0)
  by_cases hB : env.spawn_output_ok && env.spawn_input_ok <;> simp [hR, hf, hB]

/-- C1: at every thread creation of a run, the spawning (main) thread has
SIGALRM blocked and the created thread starts with SIGALRM blocked through
mask inheritance; consequently, once both I/O threads are started, every
thread of control other than the designated timer owner has the timer
signal masked and can never receive a timer wake-up. -/
theorem c1_sigalrm_masked_before_spawn (env : Env) (toks : List (Nat × String))
    (pos : List String) :
    (∀ p ∈ (runMain env toks pos).spawnLog,
      maskOf p.2 .main = true ∧ maskOf p.2 p.1 = true) ∧
    ((runMain env toks pos).spawnLog ≠ [] →
      env.spawn_output_ok = true → env.spawn_input_ok = true →
      ∀ t, t ≠ timerOwner → maskOf (runMain env toks pos).masks t = true) := by
  rcases hP : parseLoop env toks st0 with ⟨st, e⟩
  cases e with
  | some ee =>
    cases ee with
    | errx m =>
      refine ⟨?_, ?_⟩
      · simp [runMain, hP]
      · intro hne
        simp [runMain, hP] at hne
    | exitNow s' =>
      refine ⟨?_, ?_⟩
      · simp [runMain, hP]
      · intro hne
        simp [runMain, hP] at hne
  | none =>
    cases pos with
    | nil =>
      refine ⟨?_, ?_⟩
      · simp [runMain, hP]
      · intro hne
        simp [runMain, hP] at hne
    | cons a rest =>
      cases rest with
      | nil =>
        refine ⟨?_, ?_⟩
        · simp [runMain, hP]
        · intro hne
          simp [runMain, hP] at hne
      | cons b rest2 =>
        cases rest2 with
        | cons x rest3 =>
          refine ⟨?_, ?_⟩
          · simp [runMain, hP]
          · intro hne
            simp [runMain, hP] at hne
        | nil =>
          refine ⟨?_, ?_⟩
          · simp only [runMain, hP]
            rw [runPhases_spawnLog]
            by_cases hR : env.hybrid_init_ret < 0
            · simp [hR]
            · rw [if_neg hR, start_io_threads_spawnLog]
              intro p hp
              by_cases hO : env.spawn_output_ok
              · by_cases hI : env.spawn_input_ok
                · simp [hO, hI] at hp
                  rcases hp with hp | hp <;> subst hp <;> exact ⟨rfl, rfl⟩
                · simp [hO, hI] at hp
                  subst hp
                  exact ⟨rfl, rfl⟩
              · by_cases hI : env.spawn_input_ok
                · simp [hO, hI] at hp
                  subst hp
                  exact ⟨rfl, rfl⟩
                · simp [hO, hI] at hp
          · intro hne hO hI t ht
            simp only [runMain, hP] at hne ⊢
            by_cases hR : env.hybrid_init_ret < 0
            · rw [runPhases_spawnLog, if_pos hR] at hne
              exact absurd rfl hne
            · rw [runPhases_masks env st a b hR,
                start_io_threads_masks_success env st.ctx _ st.ms hO hI]
              cases t <;> rfl

/-- Witness for C1: in the all-success run the main thread, which is not the
timer owner, has SIGALRM masked at the end. -/
theorem c1_witness :
    maskOf (runMain envA [] ["1", "dev"]).masks Tid.main = true :=
  (c1_sigalrm_masked_before_spawn envA [] ["1", "dev"]).2 (by decide) rfl rfl
    Tid.main (by decide)

/-- C8: the option step on an invalid reset GPIO number exits fatally with
the invalid-GPIO diagnostic, and every run that ends with that diagnostic
exits non-zero with neither serial nor GPIO initialization nor any
hybrid_init call in its trace. -/
theorem c8_invalid_reset_gpio_fatal (env : Env) (st : LoopState) (s : String)
    (n : Nat) (toks : List (Nat × String)) (pos : List String)
    (hx : xatou s = some n) (hg : env.gpio_check n = false)
    (hd : (runMain env toks pos).diag = some "invalid RESET GPIO number") :
    parseStep env st (OPT_RESET, s) =
      ({ st with ctx := { st.ctx with gpio_reset := (n : Int) } },
        some (EarlyExit.errx "invalid RESET GPIO number")) ∧
    (runMain env toks pos).status = 1 ∧
    Event.serialInit ∉ (runMain env toks pos).events ∧
    Event.gpioConfig ∉ (runMain env toks pos).events ∧
    Event.hybridInit ∉ (runMain env toks pos).events := by
  have hT : ¬ (OPT_RESET = chOf 'T') := by decide
  have hM : ¬ (OPT_RESET = chOf 'm') := by decide
  have hpr : (SendMode.parse_option st.ctx st.ms OPT_RESET s).1 = false := by
    simp [SendMode.parse_option, hT, hM]
  constructor
  · simp [parseStep, hpr, hx, hg]
  · have hben := parseLoop_events_benign env toks st0
      (by intro x hx'; simp [st0] at hx')
    rcases hP : parseLoop env toks st0 with ⟨stp, e⟩
    rw [hP] at hben
    cases e with
    | some ee =>
      cases ee with
      | errx m =>
        refine ⟨by simp [runMain, hP], ?_, ?_, ?_⟩ <;>
          · simp only [runMain, hP]
            intro hm
            have hb := hben _ hm
            simp [benign] at hb
      | exitNow s' =>
        simp only [runMain, hP] at hd
        exact absurd hd (by simp)
    | none =>
      cases pos with
      | nil =>
        simp only [runMain, hP] at hd
        exact absurd hd (by simp)
      | cons a rest =>
        cases rest with
        | nil =>
          simp only [runMain, hP] at hd
          exact absurd hd (by simp)
        | cons b rest2 =>
          cases rest2 with
          | cons x rest3 =>
            simp only [runMain, hP] at hd
            exact absurd hd (by simp)
          | nil =>
            exfalso
            simp only [runMain, hP] at hd
            rw [runPhases_diag] at hd
            by_cases hR : env.hybrid_init_ret < 0
            · rw [if_pos hR] at hd
              injection hd with hd'
              exact absurd hd' (by decide)
            · by_cases hB : env.spawn_output_ok && env.spawn_input_ok
              · rw [if_neg hR, if_pos hB] at hd
                exact Option.noConfusion hd
              · rw [if_neg hR, if_neg hB] at hd
                injection hd with hd'
                exact absurd hd' (by decide)

/-- Witness for C8 on the concrete run with option --reset 99 rejected by
the GPIO check. -/
theorem c8_witness :
    parseStep envB st0 (OPT_RESET, "99") =
      ({ st0 with ctx := { st0.ctx with gpio_reset := (99 : Int) } },
        some (EarlyExit.errx "invalid RESET GPIO number")) ∧
    (runMain envB [(OPT_RESET, "99")] ["1", "dev"]).status = 1 ∧
    Event.serialInit ∉ (runMain envB [(OPT_RESET, "99")] ["1", "dev"]).events ∧
    Event.gpioConfig ∉ (runMain envB [(OPT_RESET, "99")] ["1", "dev"]).events ∧
    Event.hybridInit ∉ (runMain envB [(OPT_RESET, "99")] ["1", "dev"]).events :=
  c8_invalid_reset_gpio_fatal envB st0 "99" 99 [(OPT_RESET, "99")] ["1", "dev"]
    (by decide) rfl (by decide)

/-- C4 counterexample: with no options and no positional arguments the run
exits through the help path without ever calling the mode destroy, so
destroy is not called on every exit path. -/
theorem c4_counterexample :
    Event.modeDestroy ∉ (runMain envA [] []).events ∧
    (runMain envA [] []).status = 1 := by
  decide

/-- C4 amended: the mode destroy is called on exactly the runs that parse
successfully with exactly two positional arguments and whose driver
initialization and both thread creations succeed; it is then called exactly
once, after the Writer/Mode (output) thread has been joined, and the run
exits successfully. Every other path (help, version, unknown option, bad
argument count, configuration error, initialization failure, thread-creation
failure) exits without calling destroy. -/
theorem c4_destroy_only_after_join (env : Env) (toks : List (Nat × String))
    (pos : List String) :
    ((runMain env toks pos).events.count Event.modeDestroy ≤ 1) ∧
    (Event.modeDestroy ∈ (runMain env toks pos).events →
      eventBefore (Event.joinThread .output) Event.modeDestroy
        (runMain env toks pos).events ∧ (runMain env toks pos).status = 0) ∧
    (Event.modeDestroy ∈ (runMain env toks pos).events ↔
      ((parseLoop env toks st0).2 = none ∧ (∃ a b, pos = [a, b]) ∧
        ¬ env.hybrid_init_ret < 0 ∧ env.spawn_output_ok = true ∧
        env.spawn_input_ok = true)) := by
  have hben := parseLoop_events_benign env toks st0
    (by intro x hx; simp [st0] at hx)
  rcases hP : parseLoop env toks st0 with ⟨st, e⟩
  rw [hP] at hben
  have hnotin : Event.modeDestroy ∉ st.events := by
    intro hm
    have hb := hben _ hm
    simp [benign] at hb
  cases e with
  | some ee =>
    have hm' : Event.modeDestroy ∉ (runMain env toks pos).events := by
      cases ee with
      | errx m =>
        simp only [runMain, hP]
        exact hnotin
      | exitNow s' =>
        simp only [runMain, hP]
        exact hnotin
    refine ⟨?_, fun hm => absurd hm hm', ?_⟩
    · cases ee with
      | errx m =>
        simp only [runMain, hP]
        rw [List.count_eq_zero.2 hnotin]
        decide
      | exitNow s' =>
        simp only [runMain, hP]
        rw [List.count_eq_zero.2 hnotin]
        decide
    · constructor
      · intro hm
        exact absurd hm hm'
      · rintro ⟨hq, _, _⟩
        simp at hq
  | none =>
    cases pos with
    | nil =>
      have hm' : Event.modeDestroy ∉ (runMain env toks ([] : List String)).events := by
        simp only [runMain, hP]
        intro hm
        rcases List.mem_append.1 hm with hl | hr
        · exact hnotin hl
        · simp at hr
      refine ⟨?_, fun hm => absurd hm hm', ?_⟩
      · simp only [runMain, hP]
        rw [List.count_append, List.count_eq_zero.2 hnotin]
        decide
      · constructor
        · intro hm
          exact absurd hm hm'
        · rintro ⟨_, ⟨x, y, hxy⟩, _⟩
          simp at hxy
    | cons a' rest =>
      cases rest with
      | nil =>
        have hm' : Event.modeDestroy ∉ (runMain env toks [a']).events := by
          simp only [runMain, hP]
          intro hm
          rcases List.mem_append.1 hm with hl | hr
          · exact hnotin hl
          · simp at hr
        refine ⟨?_, fun hm => absurd hm hm', ?_⟩
        · simp only [runMain, hP]
          rw [List.count_append, List.count_eq_zero.2 hnotin]
          decide
        · constructor
          · intro hm
            exact absurd hm hm'
          · rintro ⟨_, ⟨x, y, hxy⟩, _⟩
            simp at hxy
      | cons b' rest2 =>
        cases rest2 with
        | cons x' rest3 =>
          have hm' : Event.modeDestroy ∉
              (runMain env toks (a' :: b' :: x' :: rest3)).events := by
            simp only [runMain, hP]
            intro hm
            rcases List.mem_append.1 hm with hl | hr
            · exact hnotin hl
            · simp at hr
          refine ⟨?_, fun hm => absurd hm hm', ?_⟩
          · simp only [runMain, hP]
            rw [List.count_append, List.count_eq_zero.2 hnotin]
            decide
          · constructor
            · intro hm
              exact absurd hm hm'
            · rintro ⟨_, ⟨x, y, hxy⟩, _⟩
              simp at hxy
        | nil =>
          simp only [runMain, hP]
          rw [runPhases_events]
          set hyb2 := SendMode.init st.ctx
            { st.hybrid with mac_address := strtol16 a' % 65536 } with hh
          have hchar : Event.modeDestroy ∈
              st.events ++ mainTail env st.ctx hyb2 st.ms ↔
              (¬ env.hybrid_init_ret < 0 ∧ env.spawn_output_ok = true ∧
                env.spawn_input_ok = true) := by
            constructor
            · intro hm
              by_cases hR : env.hybrid_init_ret < 0
              · exfalso
                unfold mainTail at hm
                rw [if_pos hR] at hm
                simp only [List.append_nil, List.mem_append] at hm
                rcases hm with hl | (hmid | ht)
                · exact hnotin hl
                · rcases mem_initialize_driver hmid with h' | h' <;> simp at h'
                · simp at ht
              · by_cases hB : env.spawn_output_ok && env.spawn_input_ok
                · have hOI : env.spawn_output_ok = true ∧
                      env.spawn_input_ok = true := by
                    simpa using hB
                  exact ⟨hR, hOI.1, hOI.2⟩
                · exfalso
                  unfold mainTail at hm
                  rw [if_neg hR, if_neg hB] at hm
                  simp only [List.append_nil, List.mem_append] at hm
                  rcases hm with hl | ((hmid | ht) | hio)
                  · exact hnotin hl
                  · rcases mem_initialize_driver hmid with h' | h' <;> simp at h'
                  · simp at ht
                  · exact (ioEvents_no env st.ctx hyb2 st.ms).2.2.1 hio
            · rintro ⟨hR, hO, hI⟩
              have hB : (env.spawn_output_ok && env.spawn_input_ok) = true := by
                rw [hO, hI]
                rfl
              unfold mainTail
              rw [if_neg hR, if_pos hB]
              simp
          refine ⟨?_, ?_, ?_⟩
          · rw [List.count_append, List.count_eq_zero.2 hnotin]
            unfold mainTail
            rw [List.count_append, List.count_append]
            have hz : (initialize_driver st.ctx).count Event.modeDestroy = 0 :=
              List.count_eq_zero.2 (by
                intro hm
                rcases mem_initialize_driver hm with h' | h' <;> simp at h')
            rw [hz]
            by_cases hR : env.hybrid_init_ret < 0
            · rw [if_pos hR]
              decide
            · rw [if_neg hR, List.count_append,
                List.count_eq_zero.2 (ioEvents_no env st.ctx hyb2 st.ms).2.2.1]
              by_cases hB : env.spawn_output_ok && env.spawn_input_ok
              · rw [if_pos hB]
                decide
              · rw [if_neg hB]
                decide
          · intro hm
            obtain ⟨hR, hO, hI⟩ := hchar.mp hm
            have hB : (env.spawn_output_ok && env.spawn_input_ok) = true := by
              rw [hO, hI]
              rfl
            refine ⟨?_, ?_⟩
            · refine ⟨st.events ++ initialize_driver st.ctx ++
                ([Event.modeInit, Event.blockSignals .main, Event.hybridInit] ++
                  ([Event.spawn .output] ++ [Event.spawn .input] ++
                    ([Event.blockSignals .input] ++
                      (SendMode.start st.ctx st.ms hyb2 env.link_ack).1))),
                [], [], ?_⟩
              unfold mainTail ioEvents
              rw [if_neg hR, if_pos hB, hO, hI]
              simp
            · rw [runPhases_status, if_neg hR, if_pos hB]
          · rw [hchar]
            constructor
            · rintro ⟨hR, hO, hI⟩
              exact ⟨by trivial, ⟨a', b', rfl⟩, hR, hO, hI⟩
            · rintro ⟨_, _, hR, hO, hI⟩
              exact ⟨hR, hO, hI⟩

/-- Witness for C4 amended: both directions of the characterization at
concrete runs: the full run calls destroy once after the join and exits 0;
the bad-argument-count run does not call destroy. -/
theorem c4_witness :
    eventBefore (Event.joinThread .output) Event.modeDestroy
      (runMain envA [] ["1", "dev"]).events ∧
    (runMain envA [] ["1", "dev"]).status = 0 ∧
    Event.modeDestroy ∈ (runMain envA [] ["1", "dev"]).events ∧
    Event.modeDestroy ∉ (runMain envA [] []).events := by
  have h := c4_destroy_only_after_join envA [] ["1", "dev"]
  have h2 := c4_destroy_only_after_join envA [] []
  have hmem : Event.modeDestroy ∈ (runMain envA [] ["1", "dev"]).events :=
    h.2.2.mpr ⟨by decide, ⟨"1", "dev", rfl⟩, by decide, rfl, rfl⟩
  refine ⟨(h.2.1 hmem).1, (h.2.1 hmem).2, hmem, ?_⟩
  intro hmm
  obtain ⟨_, ⟨x, y, hxy⟩, _⟩ := h2.2.2.mp hmm
  simp at hxy


end Weremac
